import Mathlib

/-!
Shallow embedding of `src/forge/forge.cpp` (ShieldBattery "forge" hooking core).

The file models the Forge singleton state, the three import-hook replacement
functions (`CreateWindowExAHook`, `GetSystemMetricsHook`, `GetProcAddressHook`),
the chained window procedure (`WndProc`), the message-pump worker
(`WndProcWorker` / `WndProcWorkerAfter`), and the state-mutating entry points
(`Inject`, `Restore`, `RunWndProc`, `EndWndProc`, `SetVertexShader`,
`SetFragmentShader`, `RegisterDirectGlaw`).

Conventions of the embedding:
- A C `assert` that fires is modelled as the operation returning `none`.
- Platform functions the code calls (the original import entries,
  `AdjustWindowRect`, `GetWindowLong`) are parameters gathered in `Env`;
  the hook bodies themselves are translated literally.
- C `int` division truncates toward zero, so `/` on C ints is `Int.tdiv`.
- Machine handles and pointers are modelled as integers or, where only
  identity matters, as small inductive types.
-/

namespace SbatForge

/-! ### Windows constants used by forge.cpp (values from the platform SDK) -/

def WM_NCACTIVATE : Nat := 0x0086
def WM_NCHITTEST : Nat := 0x0084
def WM_NCLBUTTONDOWN : Nat := 0x00A1
def WM_NCLBUTTONUP : Nat := 0x00A2
def WM_NCMOUSEMOVE : Nat := 0x00A0
def WM_NCPAINT : Nat := 0x0085
def WM_PAINT : Nat := 0x000F
def WM_CLOSE : Nat := 0x0010
def WM_USER : Nat := 0x0400

/-- `#define WM_END_WND_PROC_WORKER (WM_USER + 27)` — the sentinel message. -/
def WM_END_WND_PROC_WORKER : Nat := WM_USER + 27

def SM_CXSCREEN : Int := 0
def SM_CYSCREEN : Int := 1
def SM_CXFULLSCREEN : Int := 16
def SM_CYFULLSCREEN : Int := 17

def WS_POPUP : Nat := 0x80000000
def WS_VISIBLE : Nat := 0x10000000
def WS_CAPTION : Nat := 0x00C00000
def WS_SYSMENU : Nat := 0x00080000

/-- Window handles (`HWND`) are machine words; modelled as integers. -/
abbrev HWND := Int

/-- A window-procedure pointer (`WNDPROC`); only identity matters. -/
abbrev WNDPROC := Int

/-! ### Data model: the Forge singleton's fields -/

/-- The external `DirectGlaw` graphics backend, modelled by the calls the
forge core makes into it: its reference count (`AddRef`) and the shader
sources pushed by `SetVertexShader` / `SetFragmentShader`. -/
structure DirectGlaw where
  refs : Nat
  vertexShader : Option String
  fragmentShader : Option String
deriving DecidableEq, Repr

/-- The mutable fields of the `Forge` singleton (`window_handle_`,
`original_wndproc_`, `direct_glaw_`, `vertex_shader_src_`,
`fragment_shader_src_`). `none` models `NULL`/`nullptr`. -/
structure ForgeState where
  window_handle : Option HWND
  original_wndproc : Option WNDPROC
  direct_glaw : Option DirectGlaw
  vertex_shader_src : Option String
  fragment_shader_src : Option String
deriving DecidableEq, Repr

/-- The state established by the `Forge::Forge()` constructor initializer list. -/
def ForgeState.initial : ForgeState :=
  { window_handle := none
    original_wndproc := none
    direct_glaw := none
    vertex_shader_src := none
    fragment_shader_src := none }

/-! ### GetSystemMetricsHook -/

/-- `Forge::GetSystemMetricsHook`: widths (`SM_CXSCREEN`, `SM_CXFULLSCREEN`)
report 640, heights (`SM_CYSCREEN`, `SM_CYFULLSCREEN`) report 480, every other
index forwards to the original `GetSystemMetrics`. -/
def GetSystemMetricsHook (original : Int → Int) (nIndex : Int) : Int :=
  if nIndex = SM_CXSCREEN then 640
  else if nIndex = SM_CXFULLSCREEN then 640
  else if nIndex = SM_CYSCREEN then 480
  else if nIndex = SM_CYFULLSCREEN then 480
  else original nIndex

/-! ### GetProcAddressHook -/

/-- A `FARPROC` result of symbol resolution: either the substituted
`DirectGlawCreate` factory, or a native pointer produced by the original
resolver. -/
inductive FARPROC where
  | directGlawCreate
  | native (addr : Int)
deriving DecidableEq, Repr

/-- `Forge::GetProcAddressHook`: an exact (`strcmp`) match of the name
`"DirectDrawCreate"` yields the substitute factory; everything else forwards
to the original `GetProcAddress`. -/
def GetProcAddressHook (original : Int → String → FARPROC)
    (hModule : Int) (lpProcName : String) : FARPROC :=
  if lpProcName = "DirectDrawCreate" then FARPROC.directGlawCreate
  else original hModule lpProcName

/-! ### Inject / Restore -/

/-- `Forge::Inject`: `result = true; result &= cw; result &= gsm; result &= gpa`
over the three managed hook entries' individual `Inject()` results. -/
def Inject (cw gsm gpa : Bool) : Bool :=
  let result := true
  let result := result && cw
  let result := result && gsm
  let result := result && gpa
  result

/-- `Forge::Restore`: same accumulation over the entries' `Restore()` results. -/
def Restore (cw gsm gpa : Bool) : Bool :=
  let result := true
  let result := result && cw
  let result := result && gsm
  let result := result && gpa
  result

/-! ### The chained window procedure -/

/-- Where `Forge::WndProc` sends a message: the platform default procedure, or
the captured original procedure `p`. -/
inductive WndTarget where
  | defWindowProc
  | origProc (p : WNDPROC)
deriving DecidableEq, Repr

/-- The observable outcome of one `Forge::WndProc` call: whether the blocking
`MessageBox` was shown, and which procedure the message was handed to. -/
structure WndProcResult where
  messageBoxShown : Bool
  target : WndTarget
deriving DecidableEq, Repr

/-- The seven messages the `switch` in `Forge::WndProc` routes straight to
`DefWindowProc`. -/
def ncMessages : List Nat :=
  [WM_NCACTIVATE, WM_NCHITTEST, WM_NCLBUTTONDOWN, WM_NCLBUTTONUP,
   WM_NCMOUSEMOVE, WM_NCPAINT, WM_PAINT]

/-- `Forge::WndProc`. The listed non-client/paint messages return
`DefWindowProc` directly. `WM_CLOSE` shows the message box and then falls out
of the `switch`, reaching the forwarding code below it, exactly as every
unlisted message does: forward to `original_wndproc_` if captured, else
`DefWindowProc`. -/
def WndProc (st : ForgeState) (msg : Nat) : WndProcResult :=
  if msg ∈ ncMessages then
    { messageBoxShown := false, target := WndTarget.defWindowProc }
  else
    let shown := if msg = WM_CLOSE then true else false
    match st.original_wndproc with
    | none => { messageBoxShown := shown, target := WndTarget.defWindowProc }
    | some p => { messageBoxShown := shown, target := WndTarget.origProc p }

/-! ### CreateWindowExAHook -/

/-- The argument list of `CreateWindowExA`, as received by the hook. -/
structure CreateWindowArgs where
  dwExStyle : Nat
  lpClassName : String
  lpWindowName : String
  dwStyle : Nat
  x : Int
  y : Int
  nWidth : Int
  nHeight : Int
  hWndParent : HWND
  hMenu : Int
  hInstance : Int
  lpParam : Int
deriving DecidableEq, Repr

/-- A Win32 `RECT`. -/
structure RECT where
  left : Int
  top : Int
  right : Int
  bottom : Int
deriving DecidableEq, Repr

/-- The platform functions `Forge`'s hooks call out to: the recorded
original import entry points and the plain OS calls (`AdjustWindowRect` takes the rect,
the style and the `bMenu` flag; `getWindowLong` is
`GetWindowLong(handle, GWL_WNDPROC)`). Note on `getSystemMetrics`: the
`ImportHook`s are constructed over `GetModuleHandle(NULL)` — the main
executable's import table only — so the `GetSystemMetrics` calls made from
forge's own module inside `CreateWindowExAHook` resolve through forge's own,
unpatched import and reach the real metrics, not `GetSystemMetricsHook`. -/
structure Env where
  origCreateWindowExA : CreateWindowArgs → HWND
  getSystemMetrics : Int → Int
  adjustWindowRect : RECT → Nat → Bool → RECT
  getWindowLong : HWND → WNDPROC

/-- `style = WS_POPUP | WS_VISIBLE | WS_CAPTION | WS_SYSMENU` from the hook. -/
def forgeWindowStyle : Nat := WS_POPUP ||| WS_VISIBLE ||| WS_CAPTION ||| WS_SYSMENU

/-- The client rectangle the hook builds before `AdjustWindowRect`:
`left = (GetSystemMetrics(SM_CXSCREEN) - 640) / 2`,
`top = (GetSystemMetrics(SM_CYSCREEN) - 480) / 2`, extent 640 by 480.
C `int` division truncates toward zero (`Int.tdiv`). -/
def forgeClientRect (metrics : Int → Int) : RECT :=
  let width : Int := 640
  let height : Int := 480
  let left := (metrics SM_CXSCREEN - 640).tdiv 2
  let top := (metrics SM_CYSCREEN - 480).tdiv 2
  { left := left, top := top, right := left + width, bottom := top + height }

/-- `Forge::CreateWindowExAHook`. A class name other than `"SWarClass"`
forwards every argument unchanged to the original. A matching request asserts
`window_handle_ == NULL` (modelled as `none` on violation), rewrites style and
geometry so the client area is the 640x480 rect adjusted by
`AdjustWindowRect`, calls the original, records the returned handle, captures
the window's current procedure and installs `Forge::WndProc`. Returns the new
handle and the updated state. -/
def CreateWindowExAHook (env : Env) (st : ForgeState) (a : CreateWindowArgs) :
    Option (HWND × ForgeState) :=
  if a.lpClassName ≠ "SWarClass" then
    some (env.origCreateWindowExA a, st)
  else if st.window_handle ≠ none then
    none
  else
    let window_rect := forgeClientRect env.getSystemMetrics
    let adjusted := env.adjustWindowRect window_rect forgeWindowStyle false
    let handle := env.origCreateWindowExA
      { a with dwStyle := forgeWindowStyle
               x := adjusted.left
               y := adjusted.top
               nWidth := adjusted.right - adjusted.left
               nHeight := adjusted.bottom - adjusted.top }
    some (handle,
      { st with window_handle := some handle
                original_wndproc := some (env.getWindowLong handle) })

/-! ### Message pump worker -/

/-- What one `WndProcWorker` pump run does, given the finite sequence of
messages `GetMessage` yields before it reports queue closure: the final
`context->quit` flag and the messages that were translated and dispatched.
Retrieving the sentinel returns at once (quit stays `false`, the sentinel is
not dispatched); exhausting the stream means `GetMessage` returned `FALSE`
(queue closure) and sets `quit = true`. -/
def WndProcWorker : List Nat → Bool × List Nat
  | [] => (true, [])
  | m :: rest =>
    if m = WM_END_WND_PROC_WORKER then (false, [])
    else
      let r := WndProcWorker rest
      (r.1, m :: r.2)

/-- `WndProcWorkerAfter` invokes the stored callback exactly once with the
`quit` flag, then disposes the context; a whole `runWndProc` is thus the
singleton list of completion-callback invocations. -/
def runWndProcCompletions (msgs : List Nat) : List Bool :=
  [(WndProcWorker msgs).1]

/-- `Forge::RunWndProc` asserts `window_handle_ != NULL` before scheduling the
pump; it does not change the Forge state. -/
def RunWndProc (st : ForgeState) : Option ForgeState :=
  if st.window_handle = none then none
  else some st

/-- `Forge::EndWndProc` asserts `window_handle_ != NULL`, then posts exactly
one `WM_END_WND_PROC_WORKER` message to the recorded window. Result: the
(unchanged) state and the list of `(window, message)` posts made. -/
def EndWndProc (st : ForgeState) : Option (ForgeState × List (HWND × Nat)) :=
  match st.window_handle with
  | none => none
  | some h => some (st, [(h, WM_END_WND_PROC_WORKER)])

/-! ### Shader setters and backend registration -/

/-- `Forge::SetVertexShader` asserts `window_handle_ == NULL`, then replaces
the stored vertex shader source. -/
def SetVertexShader (st : ForgeState) (src : String) : Option ForgeState :=
  if st.window_handle ≠ none then none
  else some { st with vertex_shader_src := some src }

/-- `Forge::SetFragmentShader` asserts `window_handle_ == NULL`, then replaces
the stored fragment shader source. -/
def SetFragmentShader (st : ForgeState) (src : String) : Option ForgeState :=
  if st.window_handle ≠ none then none
  else some { st with fragment_shader_src := some src }

/-- `Forge::RegisterDirectGlaw` asserts, in order: no backend registered yet,
vertex source set, fragment source set. Then it `AddRef`s the backend, stores
the reference, and pushes both configured shader sources into it. -/
def RegisterDirectGlaw (st : ForgeState) (g : DirectGlaw) : Option ForgeState :=
  if st.direct_glaw ≠ none then none
  else if st.vertex_shader_src = none then none
  else if st.fragment_shader_src = none then none
  else
    let registered : DirectGlaw :=
      { g with refs := g.refs + 1
               vertexShader := st.vertex_shader_src
               fragmentShader := st.fragment_shader_src }
    some { st with direct_glaw := some registered }

/-! ### Combined step relation over the Forge state -/

/-- One state-touching operation of the forge core. -/
inductive ForgeOp where
  | createWindow (a : CreateWindowArgs)
  | runWndProc
  | endWndProc
  | setVertexShader (src : String)
  | setFragmentShader (src : String)
  | registerDirectGlaw (g : DirectGlaw)

/-- The Forge state after one operation; `none` models a fired assertion. -/
def forgeStep (env : Env) (st : ForgeState) : ForgeOp → Option ForgeState
  | ForgeOp.createWindow a => (CreateWindowExAHook env st a).map Prod.snd
  | ForgeOp.runWndProc => RunWndProc st
  | ForgeOp.endWndProc => (EndWndProc st).map Prod.fst
  | ForgeOp.setVertexShader s => SetVertexShader st s
  | ForgeOp.setFragmentShader s => SetFragmentShader st s
  | ForgeOp.registerDirectGlaw g => RegisterDirectGlaw st g

/-! ## Theorems -/

/-- Helper: the pump's quit flag is `false` exactly when the sentinel message
occurs in the retrieved stream. -/
theorem wndProcWorker_fst (msgs : List Nat) :
    (WndProcWorker msgs).1 = false ↔ WM_END_WND_PROC_WORKER ∈ msgs := by
  induction msgs with
  | nil => simp [WndProcWorker]
  | cons m rest ih =>
    by_cases h : m = WM_END_WND_PROC_WORKER
    · subst h
      simp [WndProcWorker]
    · have h2 : WM_END_WND_PROC_WORKER ≠ m := fun hc => h hc.symm
      simp [WndProcWorker, h, ih, List.mem_cons, h2]

/-- C4: the Metrics Spoofer returns 640 for both width indices, 480 for both
height indices, and the original's value — whatever it is — for every other
index. -/
theorem getSystemMetricsHook_spoof (original : Int → Int) (n : Int) :
    ((n = SM_CXSCREEN ∨ n = SM_CXFULLSCREEN) → GetSystemMetricsHook original n = 640) ∧
    ((n = SM_CYSCREEN ∨ n = SM_CYFULLSCREEN) → GetSystemMetricsHook original n = 480) ∧
    (n ≠ SM_CXSCREEN → n ≠ SM_CXFULLSCREEN → n ≠ SM_CYSCREEN → n ≠ SM_CYFULLSCREEN →
      GetSystemMetricsHook original n = original n) := by
  refine ⟨fun h => ?_, fun h => ?_, fun h1 h2 h3 h4 => ?_⟩
  · rcases h with h | h <;> subst h <;>
      simp [GetSystemMetricsHook, SM_CXSCREEN, SM_CXFULLSCREEN, SM_CYSCREEN, SM_CYFULLSCREEN]
  · rcases h with h | h <;> subst h <;>
      simp [GetSystemMetricsHook, SM_CXSCREEN, SM_CXFULLSCREEN, SM_CYSCREEN, SM_CYFULLSCREEN]
  · simp [GetSystemMetricsHook, h1, h2, h3, h4]

/-- C4 witness: concrete indices, with an original that returns a negative
value. -/
theorem getSystemMetricsHook_spoof_witness :
    GetSystemMetricsHook (fun _ => -7) 16 = 640 ∧
    GetSystemMetricsHook (fun _ => -7) 1 = 480 ∧
    GetSystemMetricsHook (fun _ => -7) 5 = -7 := by
  refine ⟨(getSystemMetricsHook_spoof (fun _ => -7) 16).1 (Or.inr (by decide)),
          (getSystemMetricsHook_spoof (fun _ => -7) 1).2.1 (Or.inl (by decide)),
          (getSystemMetricsHook_spoof (fun _ => -7) 5).2.2
            (by decide) (by decide) (by decide) (by decide)⟩

/-- C5: the Symbol Redirector substitutes the factory pointer exactly for the
name `"DirectDrawCreate"` and forwards every other name — including
case-variant names and the empty string — to the original resolver. -/
theorem getProcAddressHook_redirect (original : Int → String → FARPROC)
    (hModule : Int) (name : String) :
    (name = "DirectDrawCreate" →
      GetProcAddressHook original hModule name = FARPROC.directGlawCreate) ∧
    (name ≠ "DirectDrawCreate" →
      GetProcAddressHook original hModule name = original hModule name) ∧
    GetProcAddressHook original hModule "directdrawcreate" =
      original hModule "directdrawcreate" ∧
    GetProcAddressHook original hModule "" = original hModule "" := by
  refine ⟨fun h => ?_, fun h => ?_, ?_, ?_⟩
  · simp [GetProcAddressHook, h]
  · simp [GetProcAddressHook, h]
  · simp [GetProcAddressHook]
  · simp [GetProcAddressHook]

/-- C5 witness: concrete resolver, matching and non-matching names. -/
theorem getProcAddressHook_redirect_witness :
    GetProcAddressHook (fun _ _ => FARPROC.native 8) 5 "DirectDrawCreate" =
      FARPROC.directGlawCreate ∧
    GetProcAddressHook (fun _ _ => FARPROC.native 8) 5 "GetDC" = FARPROC.native 8 := by
  refine ⟨(getProcAddressHook_redirect (fun _ _ => FARPROC.native 8) 5 "DirectDrawCreate").1 rfl,
          (getProcAddressHook_redirect (fun _ _ => FARPROC.native 8) 5 "GetDC").2.1 (by decide)⟩

/-- C6: `Inject` and `Restore` each return the logical AND of the three
managed entries' individual results: overall success iff every entry
succeeds. -/
theorem inject_restore_conjunction (cw gsm gpa : Bool) :
    Inject cw gsm gpa = (cw && gsm && gpa) ∧
    (Inject cw gsm gpa = true ↔ cw = true ∧ gsm = true ∧ gpa = true) ∧
    Restore cw gsm gpa = (cw && gsm && gpa) ∧
    (Restore cw gsm gpa = true ↔ cw = true ∧ gsm = true ∧ gpa = true) := by
  cases cw <;> cases gsm <;> cases gpa <;> simp [Inject, Restore]

/-- C2: while the chained procedure is installed, the listed non-client and
paint messages go to the platform default procedure and are never forwarded
to the captured original procedure; a close request shows the blocking
message box; every message outside those classes is forwarded to the captured
original procedure when one was captured, else to the default procedure (and
shows no box). -/
theorem wndProc_transition (st : ForgeState) (msg : Nat) :
    (msg ∈ ncMessages →
      WndProc st msg = { messageBoxShown := false, target := WndTarget.defWindowProc }) ∧
    (WndProc st WM_CLOSE).messageBoxShown = true ∧
    (msg ∉ ncMessages → msg ≠ WM_CLOSE →
      (WndProc st msg).messageBoxShown = false ∧
      (WndProc st msg).target = (match st.original_wndproc with
        | none => WndTarget.defWindowProc
        | some p => WndTarget.origProc p)) := by
  refine ⟨fun h => ?_, ?_, fun h1 h2 => ?_⟩
  · simp [WndProc, h]
  · have hnc : WM_CLOSE ∉ ncMessages := by decide
    cases horig : st.original_wndproc <;> simp [WndProc, hnc, horig]
  · cases horig : st.original_wndproc <;> simp [WndProc, h1, h2, horig]

/-- C2 witness: a non-client paint goes to the default procedure, a close
shows the box, and an unlisted message is forwarded to the captured original
procedure. -/
theorem wndProc_transition_witness :
    WndProc { ForgeState.initial with original_wndproc := some 77 } WM_NCPAINT =
      { messageBoxShown := false, target := WndTarget.defWindowProc } ∧
    (WndProc { ForgeState.initial with original_wndproc := some 77 } WM_CLOSE).messageBoxShown = true ∧
    (WndProc { ForgeState.initial with original_wndproc := some 77 } 0x0201).target =
      WndTarget.origProc 77 := by
  refine ⟨(wndProc_transition { ForgeState.initial with original_wndproc := some 77 } WM_NCPAINT).1 (by decide),
          (wndProc_transition { ForgeState.initial with original_wndproc := some 77 } 0x0201).2.1,
          ((wndProc_transition { ForgeState.initial with original_wndproc := some 77 } 0x0201).2.2
            (by decide) (by decide)).2⟩

/-- C3: each `run` invokes the completion callback exactly once; the flag it
carries is `false` exactly when the pump retrieved the sentinel message, and
`true` exactly when the retrieval stream ended by queue closure (no sentinel
was retrieved). -/
theorem runWndProc_completion (msgs : List Nat) :
    (runWndProcCompletions msgs).length = 1 ∧
    (runWndProcCompletions msgs = [false] ↔ WM_END_WND_PROC_WORKER ∈ msgs) ∧
    (runWndProcCompletions msgs = [true] ↔ ¬ WM_END_WND_PROC_WORKER ∈ msgs) := by
  refine ⟨rfl, ?_, ?_⟩
  · rw [← wndProcWorker_fst msgs]
    unfold runWndProcCompletions
    constructor
    · intro h
      simpa using congrArg (fun l => l.headI) h
    · intro h
      simp [h]
  · rw [← wndProcWorker_fst msgs]
    unfold runWndProcCompletions
    cases hq : (WndProcWorker msgs).1 <;> simp [hq]

/-- C3 witness: a stream containing the sentinel completes with `false`; a
stream that ends by queue closure completes with `true`. -/
theorem runWndProc_completion_witness :
    runWndProcCompletions [5, WM_END_WND_PROC_WORKER, 7] = [false] ∧
    runWndProcCompletions [5, 7] = [true] := by
  refine ⟨(runWndProc_completion [5, WM_END_WND_PROC_WORKER, 7]).2.1.mpr (by decide),
          (runWndProc_completion [5, 7]).2.2.mpr (by decide)⟩

/-- C7: a creation request whose class name is not `"SWarClass"` is a pure
passthrough: the hook returns exactly the original function's result on the
unchanged argument list and leaves every Forge field unmodified. -/
theorem createWindowExAHook_passthrough (env : Env) (st : ForgeState)
    (a : CreateWindowArgs) (h : a.lpClassName ≠ "SWarClass") :
    CreateWindowExAHook env st a = some (env.origCreateWindowExA a, st) := by
  simp [CreateWindowExAHook, h]

/-- C7 witness: a concrete non-matching request. -/
theorem createWindowExAHook_passthrough_witness :
    CreateWindowExAHook
      { origCreateWindowExA := fun _ => 7
        getSystemMetrics := fun _ => 1920
        adjustWindowRect := fun r _ _ => r
        getWindowLong := fun _ => 0 }
      ForgeState.initial
      { dwExStyle := 0, lpClassName := "Notepad", lpWindowName := "w"
        dwStyle := 3, x := 1, y := 2, nWidth := 30, nHeight := 40
        hWndParent := 0, hMenu := 0, hInstance := 0, lpParam := 0 } =
      some (7, ForgeState.initial) :=
  createWindowExAHook_passthrough _ _ _ (by decide)

/-- C1 (amended): for a matching request (any requested style, position and
size), the hook builds a client rectangle of exactly 640x480 whose position
centers it over the screen size returned by the `GetSystemMetrics` the hook
itself reaches — the real metrics, since the import hooks patch only the
main executable's table — and calls the original creation function with the
popup/caption/system-menu style and the geometry obtained by the platform's
adjust-window-rect transform of that client rectangle, recording the
returned handle and the captured procedure. -/
theorem createWindowExAHook_matching_real_metrics (env : Env) (st : ForgeState)
    (a : CreateWindowArgs)
    (hclass : a.lpClassName = "SWarClass")
    (hwin : st.window_handle = none) :
    (forgeClientRect env.getSystemMetrics).right -
      (forgeClientRect env.getSystemMetrics).left = 640 ∧
    (forgeClientRect env.getSystemMetrics).bottom -
      (forgeClientRect env.getSystemMetrics).top = 480 ∧
    (forgeClientRect env.getSystemMetrics).left =
      (env.getSystemMetrics SM_CXSCREEN - 640).tdiv 2 ∧
    (forgeClientRect env.getSystemMetrics).top =
      (env.getSystemMetrics SM_CYSCREEN - 480).tdiv 2 ∧
    (∃ handle st2,
      CreateWindowExAHook env st a = some (handle, st2) ∧
      handle = env.origCreateWindowExA
        { a with
          dwStyle := forgeWindowStyle
          x := (env.adjustWindowRect (forgeClientRect env.getSystemMetrics)
            forgeWindowStyle false).left
          y := (env.adjustWindowRect (forgeClientRect env.getSystemMetrics)
            forgeWindowStyle false).top
          nWidth := (env.adjustWindowRect (forgeClientRect env.getSystemMetrics)
            forgeWindowStyle false).right -
            (env.adjustWindowRect (forgeClientRect env.getSystemMetrics)
              forgeWindowStyle false).left
          nHeight := (env.adjustWindowRect (forgeClientRect env.getSystemMetrics)
            forgeWindowStyle false).bottom -
            (env.adjustWindowRect (forgeClientRect env.getSystemMetrics)
              forgeWindowStyle false).top } ∧
      st2.window_handle = some handle ∧
      st2.original_wndproc = some (env.getWindowLong handle)) := by
  have hhook : CreateWindowExAHook env st a =
      some (env.origCreateWindowExA
        { a with
          dwStyle := forgeWindowStyle
          x := (env.adjustWindowRect (forgeClientRect env.getSystemMetrics)
            forgeWindowStyle false).left
          y := (env.adjustWindowRect (forgeClientRect env.getSystemMetrics)
            forgeWindowStyle false).top
          nWidth := (env.adjustWindowRect (forgeClientRect env.getSystemMetrics)
            forgeWindowStyle false).right -
            (env.adjustWindowRect (forgeClientRect env.getSystemMetrics)
              forgeWindowStyle false).left
          nHeight := (env.adjustWindowRect (forgeClientRect env.getSystemMetrics)
            forgeWindowStyle false).bottom -
            (env.adjustWindowRect (forgeClientRect env.getSystemMetrics)
              forgeWindowStyle false).top },
        { st with
          window_handle := some (env.origCreateWindowExA
            { a with
              dwStyle := forgeWindowStyle
              x := (env.adjustWindowRect (forgeClientRect env.getSystemMetrics)
                forgeWindowStyle false).left
              y := (env.adjustWindowRect (forgeClientRect env.getSystemMetrics)
                forgeWindowStyle false).top
              nWidth := (env.adjustWindowRect (forgeClientRect env.getSystemMetrics)
                forgeWindowStyle false).right -
                (env.adjustWindowRect (forgeClientRect env.getSystemMetrics)
                  forgeWindowStyle false).left
              nHeight := (env.adjustWindowRect (forgeClientRect env.getSystemMetrics)
                forgeWindowStyle false).bottom -
                (env.adjustWindowRect (forgeClientRect env.getSystemMetrics)
                  forgeWindowStyle false).top })
          original_wndproc := some (env.getWindowLong (env.origCreateWindowExA
            { a with
              dwStyle := forgeWindowStyle
              x := (env.adjustWindowRect (forgeClientRect env.getSystemMetrics)
                forgeWindowStyle false).left
              y := (env.adjustWindowRect (forgeClientRect env.getSystemMetrics)
                forgeWindowStyle false).top
              nWidth := (env.adjustWindowRect (forgeClientRect env.getSystemMetrics)
                forgeWindowStyle false).right -
                (env.adjustWindowRect (forgeClientRect env.getSystemMetrics)
                  forgeWindowStyle false).left
              nHeight := (env.adjustWindowRect (forgeClientRect env.getSystemMetrics)
                forgeWindowStyle false).bottom -
                (env.adjustWindowRect (forgeClientRect env.getSystemMetrics)
                  forgeWindowStyle false).top })) }) := by
    simp [CreateWindowExAHook, hclass, hwin]
  have hwidth : (forgeClientRect env.getSystemMetrics).right -
      (forgeClientRect env.getSystemMetrics).left = 640 := by
    simp [forgeClientRect]
  have hheight : (forgeClientRect env.getSystemMetrics).bottom -
      (forgeClientRect env.getSystemMetrics).top = 480 := by
    simp [forgeClientRect]
  exact ⟨hwidth, hheight, rfl, rfl, ⟨_, _, hhook, rfl, rfl, rfl⟩⟩

/-- C1 counterexample: the hook's centering reads the `GetSystemMetrics` its
own module links against, which the import hooks do not patch (they cover
only the main executable's table). On a real 1920x1080 screen the client
rect is placed at `(640, 300)` — centered over the real metrics — whereas
centering over the Metrics Spoofer's fixed 640x480 constants would force
`(0, 0)`: so the claim that placement centers over the Spoofer's reported
metrics is false for that screen. -/
theorem createWindowExAHook_spoofCentering_counterexample :
    forgeClientRect
        (fun n => if n = SM_CXSCREEN then 1920 else if n = SM_CYSCREEN then 1080 else 37) =
      { left := 640, top := 300, right := 1280, bottom := 780 } ∧
    forgeClientRect
        (GetSystemMetricsHook
          (fun n => if n = SM_CXSCREEN then 1920 else if n = SM_CYSCREEN then 1080 else 37)) =
      { left := 0, top := 0, right := 640, bottom := 480 } ∧
    ({ left := 640, top := 300, right := 1280, bottom := 780 } : RECT) ≠
      { left := 0, top := 0, right := 640, bottom := 480 } := by
  refine ⟨by decide, by decide, by decide⟩

/-- C1 witness: a concrete matching request against real 1920x1080 metrics;
the computed client rect is centered on those metrics. -/
theorem createWindowExAHook_matching_real_metrics_witness :
    (forgeClientRect
      (Env.mk (fun args => args.x + args.nWidth)
        (fun n => if n = SM_CXSCREEN then 1920 else if n = SM_CYSCREEN then 1080 else 37)
        (fun r _ _ => r) (fun _ => 99)).getSystemMetrics).left = 640 := by
  rw [(createWindowExAHook_matching_real_metrics
    (Env.mk (fun args => args.x + args.nWidth)
      (fun n => if n = SM_CXSCREEN then 1920 else if n = SM_CYSCREEN then 1080 else 37)
      (fun r _ _ => r) (fun _ => 99))
    ForgeState.initial
    { dwExStyle := 0, lpClassName := "SWarClass", lpWindowName := "Brood War"
      dwStyle := 0x90000000, x := 5, y := 6, nWidth := 1024, nHeight := 768
      hWndParent := 0, hMenu := 0, hInstance := 0, lpParam := 0 }
    rfl rfl).2.2.1]
  decide

/-- C8: a matching creation request arriving when a window handle is already
recorded fails the assertion; and no successful operation of the forge core
ever changes an already-recorded window handle. -/
theorem windowHandle_write_once (env : Env) (st : ForgeState) (h : HWND)
    (hset : st.window_handle = some h) :
    (∀ a : CreateWindowArgs, a.lpClassName = "SWarClass" →
      CreateWindowExAHook env st a = none) ∧
    (∀ (op : ForgeOp) (st2 : ForgeState),
      forgeStep env st op = some st2 → st2.window_handle = some h) := by
  constructor
  · intro a hclass
    simp [CreateWindowExAHook, hclass, hset]
  · intro op st2 hstep
    cases op with
    | createWindow a =>
      by_cases hclass : a.lpClassName = "SWarClass"
      · simp [forgeStep, CreateWindowExAHook, hclass, hset] at hstep
      · simp [forgeStep, CreateWindowExAHook, hclass] at hstep
        rw [← hstep, hset]
    | runWndProc =>
      simp [forgeStep, RunWndProc, hset] at hstep
      rw [← hstep, hset]
    | endWndProc =>
      simp [forgeStep, EndWndProc, hset] at hstep
      rw [← hstep, hset]
    | setVertexShader s =>
      simp [forgeStep, SetVertexShader, hset] at hstep
    | setFragmentShader s =>
      simp [forgeStep, SetFragmentShader, hset] at hstep
    | registerDirectGlaw g =>
      simp only [forgeStep, RegisterDirectGlaw] at hstep
      split at hstep
      · exact absurd hstep (by simp)
      · split at hstep
        · exact absurd hstep (by simp)
        · split at hstep
          · exact absurd hstep (by simp)
          · rw [← Option.some_inj.mp hstep, hset]

/-- C8 witness: with a window already recorded, a second matching request
asserts out, and `endWndProc` leaves the handle unchanged. -/
theorem windowHandle_write_once_witness :
    CreateWindowExAHook
      { origCreateWindowExA := fun _ => 7
        getSystemMetrics := fun _ => 1920
        adjustWindowRect := fun r _ _ => r
        getWindowLong := fun _ => 0 }
      { ForgeState.initial with window_handle := some 5 }
      { dwExStyle := 0, lpClassName := "SWarClass", lpWindowName := "w"
        dwStyle := 0, x := 0, y := 0, nWidth := 0, nHeight := 0
        hWndParent := 0, hMenu := 0, hInstance := 0, lpParam := 0 } = none ∧
    ({ ForgeState.initial with window_handle := some 5 } : ForgeState).window_handle = some 5 := by
  refine ⟨(windowHandle_write_once
      { origCreateWindowExA := fun _ => 7
        getSystemMetrics := fun _ => 1920
        adjustWindowRect := fun r _ _ => r
        getWindowLong := fun _ => 0 }
      { ForgeState.initial with window_handle := some 5 } 5 rfl).1 _ rfl,
    (windowHandle_write_once
      { origCreateWindowExA := fun _ => 7
        getSystemMetrics := fun _ => 1920
        adjustWindowRect := fun r _ _ => r
        getWindowLong := fun _ => 0 }
      { ForgeState.initial with window_handle := some 5 } 5 rfl).2
      ForgeOp.endWndProc _ rfl⟩

/-- C9: registering the backend twice fails the assertion, registering before
either shader source is configured fails the assertion, and under the
precondition the core stores a reference (taking one `AddRef`) and pushes
both configured shader sources into the backend. -/
theorem registerDirectGlaw_contract (st : ForgeState) (g : DirectGlaw) :
    (st.direct_glaw ≠ none → RegisterDirectGlaw st g = none) ∧
    (st.vertex_shader_src = none → RegisterDirectGlaw st g = none) ∧
    (st.fragment_shader_src = none → RegisterDirectGlaw st g = none) ∧
    (∀ v f : String, st.direct_glaw = none → st.vertex_shader_src = some v →
      st.fragment_shader_src = some f →
      RegisterDirectGlaw st g = some { st with
        direct_glaw := some (DirectGlaw.mk (g.refs + 1) (some v) (some f)) }) := by
  refine ⟨fun h => ?_, fun h => ?_, fun h => ?_, fun v f h1 h2 h3 => ?_⟩
  · simp [RegisterDirectGlaw, h]
  · by_cases hd : st.direct_glaw = none
    · simp [RegisterDirectGlaw, hd, h]
    · simp [RegisterDirectGlaw, hd]
  · by_cases hd : st.direct_glaw = none
    · by_cases hv : st.vertex_shader_src = none
      · simp [RegisterDirectGlaw, hd, hv]
      · simp [RegisterDirectGlaw, hd, hv, h]
    · simp [RegisterDirectGlaw, hd]
  · simp [RegisterDirectGlaw, h1, h2, h3]

/-- C9 witness: double registration fails, registration without shaders
fails, and a well-formed registration stores the backend with both sources
and one added reference. -/
theorem registerDirectGlaw_contract_witness :
    RegisterDirectGlaw
      { ForgeState.initial with vertex_shader_src := some "v", fragment_shader_src := some "f" }
      { refs := 0, vertexShader := none, fragmentShader := none } =
      some { ForgeState.initial with
        vertex_shader_src := some "v"
        fragment_shader_src := some "f"
        direct_glaw := some { refs := 1, vertexShader := some "v", fragmentShader := some "f" } } ∧
    RegisterDirectGlaw ForgeState.initial
      { refs := 0, vertexShader := none, fragmentShader := none } = none ∧
    RegisterDirectGlaw
      { ForgeState.initial with direct_glaw := some { refs := 1, vertexShader := none, fragmentShader := none } }
      { refs := 0, vertexShader := none, fragmentShader := none } = none := by
  refine ⟨(registerDirectGlaw_contract
      { ForgeState.initial with vertex_shader_src := some "v", fragment_shader_src := some "f" }
      { refs := 0, vertexShader := none, fragmentShader := none }).2.2.2 "v" "f" rfl rfl rfl,
    (registerDirectGlaw_contract ForgeState.initial
      { refs := 0, vertexShader := none, fragmentShader := none }).2.1 rfl,
    (registerDirectGlaw_contract
      { ForgeState.initial with direct_glaw := some { refs := 1, vertexShader := none, fragmentShader := none } }
      { refs := 0, vertexShader := none, fragmentShader := none }).1 (by simp)⟩

/-- C10: `endWndProc`, like `run`, fatally asserts a window was recorded:
with no recorded window it fails the assertion, and with one it posts exactly
one sentinel message, addressed to the recorded window. -/
theorem endWndProc_contract (st : ForgeState) :
    (st.window_handle = none → EndWndProc st = none) ∧
    (∀ h : HWND, st.window_handle = some h →
      EndWndProc st = some (st, [(h, WM_END_WND_PROC_WORKER)])) := by
  refine ⟨fun hn => ?_, fun h hs => ?_⟩
  · simp [EndWndProc, hn]
  · simp [EndWndProc, hs]

/-- C10 witness: no window means the assertion fires; a recorded window gets
exactly one sentinel post. -/
theorem endWndProc_contract_witness :
    EndWndProc ForgeState.initial = none ∧
    EndWndProc { ForgeState.initial with window_handle := some 5 } =
      some ({ ForgeState.initial with window_handle := some 5 },
        [(5, WM_END_WND_PROC_WORKER)]) := by
  refine ⟨(endWndProc_contract ForgeState.initial).1 rfl,
    (endWndProc_contract { ForgeState.initial with window_handle := some 5 }).2 5 rfl⟩

end SbatForge
